import Mathlib

/-!
Shallow embedding of the read-model layer of src/streamlit_app.py
(generation-2 schema: SQLite tables player_stats, ranking, daily_summary).

The database is modelled as three lists of rows; the query functions are
translated from the SQL each Python function issues together with the
surrounding Python post-processing.  SQLite specifics that the functions
rely on are modelled explicitly: ORDER BY is a sort with respect to the
column ordering, SELECT DISTINCT deduplicates, SUM over an empty row set
is NULL (an Option), LIMIT truncates, a LEFT JOIN with no matching right
row yields NULL fields, and fetchone returns the first matching row.
Python dicts produced from rows are modelled as association lists from
column-name strings to SQL values.
-/

/-- A SQL value as it appears in a Python row dict: an integer, a text, or NULL.
Survival times are stored as numbers; they are modelled as integers since no
claim depends on fractional seconds. -/
inductive Val where
  | int : Int → Val
  | str : String → Val
  | none : Val
deriving DecidableEq, Repr

/-- One row of the table player_stats: (date, player) with kills, deaths and
a nullable nemesis column. -/
structure PSRow where
  date : String
  player : String
  kills : Int
  deaths : Int
  nemesis : Option String
deriving DecidableEq, Repr

/-- One row of the table ranking: (date, player) with rank (winner encoded as
rank 0) and a nullable survival time. -/
structure RankRow where
  date : String
  player : String
  rank : Int
  time : Option Int
deriving DecidableEq, Repr

/-- One row of the table daily_summary: date (the primary key) with the
pre-computed player count and winner name. -/
structure DSRow where
  date : String
  num_players : Int
  winner : String
deriving DecidableEq, Repr

/-- The SQLite database daily_stats.db: its three tables, each a list of rows. -/
structure DB where
  player_stats : List PSRow
  ranking : List RankRow
  daily_summary : List DSRow
deriving DecidableEq, Repr

/-- Lexicographic order on character lists by code point, the order SQLite
uses for ORDER BY on TEXT columns under the default binary collation. -/
def charListLe : List Char → List Char → Bool
  | [], _ => true
  | _ :: _, [] => false
  | a :: as, b :: bs =>
    if a.toNat < b.toNat then true
    else if b.toNat < a.toNat then false
    else charListLe as bs

/-- Lexicographic text comparison on the underlying character lists. -/
def strLe (a b : String) : Bool := charListLe a.data b.data

theorem charListLe_cons_iff (a b : Char) (as bs : List Char) :
    charListLe (a :: as) (b :: bs) = true ↔
      a.toNat < b.toNat ∨ (a.toNat = b.toNat ∧ charListLe as bs = true) := by
  simp only [charListLe]
  split_ifs with h1 h2
  · simp [h1]
  · simp [h1, h2]
    omega
  · have h3 : a.toNat = b.toNat := by omega
    simp [h1, h3]

theorem charListLe_total : ∀ as bs : List Char,
    charListLe as bs = true ∨ charListLe bs as = true
  | [], _ => Or.inl rfl
  | _ :: _, [] => Or.inr rfl
  | a :: as, b :: bs => by
    rw [charListLe_cons_iff, charListLe_cons_iff]
    rcases Nat.lt_trichotomy a.toNat b.toNat with h | h | h
    · exact Or.inl (Or.inl h)
    · rcases charListLe_total as bs with hr | hr
      · exact Or.inl (Or.inr ⟨h, hr⟩)
      · exact Or.inr (Or.inr ⟨h.symm, hr⟩)
    · exact Or.inr (Or.inl h)

theorem charListLe_trans : ∀ as bs cs : List Char,
    charListLe as bs = true → charListLe bs cs = true → charListLe as cs = true
  | [], _, _ => fun _ _ => rfl
  | _ :: _, [], _ => fun h _ => by simp [charListLe] at h
  | _ :: _, _ :: _, [] => fun _ h => by simp [charListLe] at h
  | a :: as, b :: bs, c :: cs => fun h1 h2 => by
    rw [charListLe_cons_iff] at h1 h2 ⊢
    rcases h1 with h1 | ⟨h1e, h1r⟩
    · rcases h2 with h2 | ⟨h2e, _⟩
      · exact Or.inl (h1.trans h2)
      · exact Or.inl (h2e ▸ h1)
    · rcases h2 with h2 | ⟨h2e, h2r⟩
      · exact Or.inl (h1e ▸ h2)
      · exact Or.inr ⟨h1e.trans h2e, charListLe_trans as bs cs h1r h2r⟩

theorem strLe_total (a b : String) : strLe a b = true ∨ strLe b a = true :=
  charListLe_total a.data b.data

theorem strLe_trans {a b c : String} (h1 : strLe a b = true) (h2 : strLe b c = true) :
    strLe a c = true :=
  charListLe_trans a.data b.data c.data h1 h2

/-- Descending text order, used for ORDER BY date DESC on the date column. -/
def strDesc (a b : String) : Prop := strLe b a = true

/-- Ascending text order, used for ORDER BY player ASC. -/
def strAsc (a b : String) : Prop := strLe a b = true

/-- Descending order on daily_summary rows by their date column. -/
def dsDateDesc (a b : DSRow) : Prop := strLe b.date a.date = true

/-- Descending order on (player, value) pairs by the value, used for
ORDER BY total_stat DESC. -/
def valDesc (a b : String × Int) : Prop := b.2 ≤ a.2

instance : DecidableRel strDesc := fun a b => inferInstanceAs (Decidable (strLe b a = true))

instance : DecidableRel strAsc := fun a b => inferInstanceAs (Decidable (strLe a b = true))

instance : DecidableRel dsDateDesc :=
  fun a b => inferInstanceAs (Decidable (strLe b.date a.date = true))

instance : DecidableRel valDesc := fun a b => inferInstanceAs (Decidable (b.2 ≤ a.2))

instance : IsTotal String strDesc := ⟨fun a b => strLe_total b a⟩

instance : IsTrans String strDesc := ⟨fun _ _ _ h1 h2 => strLe_trans h2 h1⟩

instance : IsTotal String strAsc := ⟨fun a b => strLe_total a b⟩

instance : IsTrans String strAsc := ⟨fun _ _ _ h1 h2 => strLe_trans h1 h2⟩

instance : IsTotal DSRow dsDateDesc := ⟨fun a b => strLe_total b.date a.date⟩

instance : IsTrans DSRow dsDateDesc := ⟨fun _ _ _ h1 h2 => strLe_trans h2 h1⟩

instance : IsTotal (String × Int) valDesc := ⟨fun a b => le_total b.2 a.2⟩

instance : IsTrans (String × Int) valDesc := ⟨fun _ _ _ h1 h2 => le_trans h2 h1⟩

/-- Lookup of a column name in a Python row dict (an association list). -/
def dictGet (k : String) : List (String × Val) → Option Val
  | [] => Option.none
  | (k2, v) :: rest => if k = k2 then some v else dictGet k rest

/-- get_available_dates:
SELECT date FROM daily_summary ORDER BY date DESC, then the Python code
prepends the sentinel: return [ "All Time" ] + dates. -/
def get_available_dates (db : DB) : List String :=
  "All Time" :: List.insertionSort strDesc (db.daily_summary.map (·.date))

/-- get_all_players:
SELECT DISTINCT player FROM player_stats ORDER BY player ASC. -/
def get_all_players (db : DB) : List String :=
  List.insertionSort strAsc (db.player_stats.map (·.player)).dedup

/-- The player catalog as the app uses it: get_all_players takes no period
argument, and the sidebar player list it produces is rendered unchanged for
every selected date filter (streamlit_app.py lines 198 and 218), so the
listing for any period argument is the same all-periods list. -/
def list_players (db : DB) (period : String) : List String :=
  get_all_players db

/-- get_all_time_winners:
SELECT date, winner FROM daily_summary ORDER BY date DESC, one output row
per table row (returned by the Python code as a two-column dataframe;
an empty table yields the empty dataframe). -/
def get_all_time_winners (db : DB) : List (String × String) :=
  (List.insertionSort dsDateDesc db.daily_summary).map (fun r => (r.date, r.winner))

/-- The record get_daily_summary returns: the two selected columns. -/
structure SummaryView where
  num_players : Int
  winner : String
deriving DecidableEq, Repr

/-- get_daily_summary:
SELECT num_players, winner FROM daily_summary WHERE date = ? with fetchone
(first matching row); if no row, the Python code returns the literal dict
with num_players 0 and winner "N/A". -/
def get_daily_summary (db : DB) (date_str : String) : SummaryView :=
  match db.daily_summary.find? (fun r => r.date = date_str) with
  | some r => ⟨r.num_players, r.winner⟩
  | Option.none => ⟨0, "N/A"⟩

/-- The stat-to-column whitelist of get_top_players:
valid_stats = dict with kills and deaths mapped to themselves;
stat_col = valid_stats.get(stat, "kills"). -/
def statCol (stat : String) : String :=
  if stat = "kills" then "kills" else if stat = "deaths" then "deaths" else "kills"

/-- Value of a whitelisted column of a player_stats row; statCol only ever
produces the column names kills and deaths. -/
def getCol (c : String) (r : PSRow) : Int :=
  if c = "kills" then r.kills else r.deaths

/-- The GROUP BY player with SUM(stat_col) of the All Time branch of
get_top_players: one group per distinct player, carrying the sum of the
column over the rows of that player. -/
def groupSums (c : String) (rows : List PSRow) : List (String × Int) :=
  (rows.map (·.player)).dedup.map
    (fun p => (p, ((rows.filter (·.player = p)).map (getCol c)).sum))

/-- get_top_players:
for "All Time": SELECT player, SUM(stat_col) FROM player_stats GROUP BY player
ORDER BY total_stat DESC LIMIT ?;
otherwise: SELECT player, stat_col FROM player_stats WHERE date = ?
ORDER BY total_stat DESC LIMIT ?. -/
def get_top_players (db : DB) (day_filter stat : String) (limit : Nat) : List (String × Int) :=
  let c := statCol stat
  let base :=
    if day_filter = "All Time" then groupSums c db.player_stats
    else (db.player_stats.filter (·.date = day_filter)).map (fun r => (r.player, getCol c r))
  (List.insertionSort valDesc base).take limit

/-- A bound parameter of a parameterized query. -/
inductive SqlParam where
  | str : String → SqlParam
  | int : Int → SqlParam
deriving DecidableEq, Repr

/-- The SQL text that get_top_players builds: the Python f-string interpolates
only stat_col (the whitelist output) into the text; everything else is fixed. -/
def top_players_query (day_filter stat : String) : String :=
  let c := statCol stat
  if day_filter = "All Time" then
    "\n            SELECT player, SUM(" ++ c ++ ") as total_stat\n            FROM player_stats GROUP BY player ORDER BY total_stat DESC LIMIT ?\n        "
  else
    "\n            SELECT player, " ++ c ++ " as total_stat\n            FROM player_stats WHERE date = ? ORDER BY total_stat DESC LIMIT ?\n        "

/-- The bound parameter tuple of get_top_players: (limit,) for All Time,
(day_filter, limit) otherwise. -/
def top_players_params (day_filter : String) (limit : Int) : List SqlParam :=
  if day_filter = "All Time" then [SqlParam.int limit]
  else [SqlParam.str day_filter, SqlParam.int limit]

/-- get_player_stats.
All Time branch: SELECT SUM(kills), SUM(deaths) FROM player_stats WHERE
player = ? (SUM over zero rows is NULL), then SELECT COUNT of daily_summary
rows WHERE winner = ?; returns None when total_kills is NULL, else the dict
with total_kills, total_deaths, total_wins.
Specific-day branch: SELECT ps.kills, ps.deaths, ps.nemesis, r.rank, r.time
FROM player_stats ps LEFT JOIN ranking r ON ps.date = r.date AND
ps.player = r.player WHERE ps.date = ? AND ps.player = ? with fetchone;
returns None when no player_stats row matches, else the dict with rank
renamed to ranking and time renamed to tiempo_s (NULL when the left join
found no ranking row). -/
def get_player_stats (db : DB) (day_filter player : String) :
    Option (List (String × Val)) :=
  if day_filter = "All Time" then
    let rows := db.player_stats.filter (·.player = player)
    let total_wins : Int := (db.daily_summary.filter (·.winner = player)).length
    match rows with
    | [] => Option.none
    | _ :: _ =>
      some [("total_kills", Val.int ((rows.map (·.kills)).sum)),
            ("total_deaths", Val.int ((rows.map (·.deaths)).sum)),
            ("total_wins", Val.int total_wins)]
  else
    match db.player_stats.find? (fun r => r.date = day_filter ∧ r.player = player) with
    | some r =>
      let rk := db.ranking.find? (fun q => q.date = r.date ∧ q.player = r.player)
      some [("kills", Val.int r.kills),
            ("deaths", Val.int r.deaths),
            ("nemesis", match r.nemesis with
                        | some s => Val.str s
                        | Option.none => Val.none),
            ("ranking", match rk with
                        | some q => Val.int q.rank
                        | Option.none => Val.none),
            ("tiempo_s", match rk with
                         | some q => match q.time with
                                     | some t => Val.int t
                                     | Option.none => Val.none
                         | Option.none => Val.none)]
    | Option.none => Option.none

/-- The number of distinct players that have data for a day-filter argument:
all distinct players for All Time, the distinct players with a row for the
given date otherwise. -/
def distinctPlayerCount (db : DB) (day_filter : String) : Nat :=
  if day_filter = "All Time" then (db.player_stats.map (·.player)).dedup.length
  else ((db.player_stats.filter (·.date = day_filter)).map (·.player)).dedup.length

/-- Average survival time of a player over the ranking rows of that player
(NULL times counted as 0), or absent when the player has no ranking rows.
This formalises the phrase "average of survival time across the player
periods" from the claim; the code computes no such average. -/
def avgSurvival (db : DB) (player : String) : Option Int :=
  let ts := (db.ranking.filter (·.player = player)).map (fun q => q.time.getD 0)
  match ts with
  | [] => Option.none
  | _ :: _ => some (ts.sum / ts.length)

/-- A small concrete database used to instantiate the theorems: two periods,
players alice, bob and carol, alice with kills 3 and 5 and one win. -/
def exDB : DB :=
  { player_stats := [⟨"2025-01-01", "bob", 2, 1, some "alice"⟩,
                     ⟨"2025-01-01", "alice", 3, 0, Option.none⟩,
                     ⟨"2025-01-02", "alice", 5, 1, some "carol"⟩],
    ranking := [⟨"2025-01-01", "alice", 0, some 6⟩,
                ⟨"2025-01-02", "alice", 2, some 8⟩],
    daily_summary := [⟨"2025-01-01", 2, "alice"⟩, ⟨"2025-01-02", 1, "carol"⟩] }

/-- A database whose only daily_summary row carries zero players and the
literal winner name N/A, indistinguishable through get_daily_summary from a
missing row. -/
def exDB2 : DB :=
  { player_stats := [], ranking := [], daily_summary := [⟨"2025-01-05", 0, "N/A"⟩] }

/-- C1: the code does not fail on a statistic outside the whitelist: the
whitelist lookup silently falls back to the kills column, so the
survival_time leaderboard request returns exactly the kills leaderboard
instead of an UnsupportedStatistic error, for the all-time branch and for a
specific date alike. -/
theorem get_top_players_silent_kills_fallback :
    statCol "survival_time" = "kills" ∧
    statCol "collisions" = "kills" ∧
    get_top_players exDB "All Time" "survival_time" 5 = [("alice", 8), ("bob", 2)] ∧
    get_top_players exDB "All Time" "survival_time" 5 =
      get_top_players exDB "All Time" "kills" 5 ∧
    get_top_players exDB "2025-01-01" "survival_time" 5 =
      get_top_players exDB "2025-01-01" "kills" 5 := by
  refine ⟨rfl, rfl, by decide, by decide, by decide⟩

/-- C3 counterexample: the player listing ignores the period argument: for
the period 2025-01-02 it still contains bob, who has no row for that date
(bob only played on 2025-01-01), refuting the claim that a specific period
yields only players with a row for that exact period. -/
theorem list_players_period_counterexample :
    list_players exDB "2025-01-02" = ["alice", "bob"] ∧
    "bob" ∈ list_players exDB "2025-01-02" ∧
    (∀ r ∈ exDB.player_stats, ¬(r.date = "2025-01-02" ∧ r.player = "bob")) := by
  refine ⟨by decide, by decide, by decide⟩

/-- C3 amended: for every period argument the player listing is the same
lexicographically ascending, deduplicated list of all players appearing in
any row of player_stats. -/
theorem list_players_sorted_dedup_all_periods (db : DB) (period : String) :
    (list_players db period).Sorted strAsc ∧
    (list_players db period).Nodup ∧
    (∀ p, p ∈ list_players db period ↔ ∃ r ∈ db.player_stats, r.player = p) := by
  refine ⟨List.sorted_insertionSort strAsc _, ?_, ?_⟩
  · exact (List.perm_insertionSort strAsc _).symm.nodup
      (List.nodup_dedup (db.player_stats.map (·.player)))
  · intro p
    simp only [list_players, get_all_players, List.mem_insertionSort, List.mem_dedup,
      List.mem_map]

/-- C4 counterexample: alice has kills 3 and 5, one win, and survival times
6 and 8 (average 7), yet the all-time record returned by get_player_stats
holds only the three totals; no field of it carries the survival-time
average, and the generation-2 schema has no collisions column at all. -/
theorem get_player_stats_no_averages :
    get_player_stats exDB "All Time" "alice" =
      some [("total_kills", Val.int 8), ("total_deaths", Val.int 1),
            ("total_wins", Val.int 1)] ∧
    avgSurvival exDB "alice" = some 7 ∧
    (∀ kv ∈ [("total_kills", Val.int 8), ("total_deaths", Val.int 1),
             ("total_wins", Val.int 1)], kv.2 ≠ Val.int 7) := by
  refine ⟨by decide, by decide, by decide⟩

/-- C4 amended: for every player with at least one player_stats row,
get_player_stats for All Time returns exactly the record whose total_kills
is the sum of the player kills across all periods, whose total_deaths is
the sum of the per-period death flags, and whose total_wins is the number
of periods whose recorded winner is the player; no averages are returned. -/
theorem get_player_stats_allTime_totals (db : DB) (p : String)
    (h : ∃ r ∈ db.player_stats, r.player = p) :
    get_player_stats db "All Time" p =
      some [("total_kills",
              Val.int (((db.player_stats.filter (fun r => r.player = p)).map (·.kills)).sum)),
            ("total_deaths",
              Val.int (((db.player_stats.filter (fun r => r.player = p)).map (·.deaths)).sum)),
            ("total_wins",
              Val.int ((db.daily_summary.filter (fun r => r.winner = p)).length))] := by
  obtain ⟨r, hr, hrp⟩ := h
  have hmem : r ∈ db.player_stats.filter (fun q => decide (q.player = p)) :=
    List.mem_filter.mpr ⟨hr, by simp [hrp]⟩
  simp only [get_player_stats, if_pos rfl]
  rcases hfil : db.player_stats.filter (fun q => decide (q.player = p)) with _ | ⟨a, rest⟩
  · rw [hfil] at hmem
    cases hmem
  · rw [hfil]
    simp

/-- C4 amended, witness: in the concrete database alice has kills 3 and 5
and wins one period, so the all-time record is (8, 1, 1), matching the
scenario of the claim. -/
theorem get_player_stats_allTime_totals_witness :
    get_player_stats exDB "All Time" "alice" =
      some [("total_kills", Val.int 8), ("total_deaths", Val.int 1),
            ("total_wins", Val.int 1)] := by
  rw [get_player_stats_allTime_totals exDB "alice" (by decide)]
  decide

/-- C8: when no daily_summary row exists for a date, get_daily_summary
returns the literal record with num_players 0 and winner N/A rather than an
absent value, and a stored row with exactly those contents produces the
same record, so the two cases are indistinguishable to the caller. -/
theorem get_daily_summary_missing_default :
    (∀ db d, (∀ r ∈ db.daily_summary, r.date ≠ d) →
       get_daily_summary db d = ⟨0, "N/A"⟩) ∧
    (∀ db d, db.daily_summary.find? (fun r => r.date = d) = some ⟨d, 0, "N/A"⟩ →
       get_daily_summary db d = ⟨0, "N/A"⟩) := by
  constructor
  · intro db d h
    have hnone : db.daily_summary.find? (fun r => decide (r.date = d)) = Option.none := by
      rw [List.find?_eq_none]
      intro r hr
      simp [h r hr]
    simp [get_daily_summary, hnone]
  · intro db d h
    simp [get_daily_summary, h]

/-- C8 witness: the record for a date with no row in the concrete database,
and the record for the stored all-zero N/A row of exDB2, are both the
default record. -/
theorem get_daily_summary_missing_default_witness :
    get_daily_summary exDB "2025-01-03" = ⟨0, "N/A"⟩ ∧
    get_daily_summary exDB2 "2025-01-05" = ⟨0, "N/A"⟩ :=
  ⟨get_daily_summary_missing_default.1 exDB "2025-01-03" (by decide),
   get_daily_summary_missing_default.2 exDB2 "2025-01-05" (by decide)⟩

/-- C2: get_player_stats returns the absent value exactly when no underlying
row exists: for All Time, absent iff the player appears in zero rows of
player_stats; for a specific date, absent iff no (date, player) row exists. -/
theorem get_player_stats_absent_iff (db : DB) (p d : String) (hd : d ≠ "All Time") :
    (get_player_stats db "All Time" p = Option.none ↔
       ∀ r ∈ db.player_stats, r.player ≠ p) ∧
    (get_player_stats db d p = Option.none ↔
       ∀ r ∈ db.player_stats, ¬(r.date = d ∧ r.player = p)) := by
  constructor
  · rcases hfil : db.player_stats.filter (fun r => decide (r.player = p)) with _ | ⟨a, rest⟩
    · simp only [get_player_stats, if_pos rfl, hfil]
      constructor
      · intro _ r hr
        have := List.filter_eq_nil_iff.mp hfil r hr
        simpa using this
      · intro _
        rfl
    · simp only [get_player_stats, if_pos rfl, hfil]
      constructor
      · intro h
        cases h
      · intro h
        have ha : a ∈ db.player_stats.filter (fun r => decide (r.player = p)) := by
          rw [hfil]
          exact List.mem_cons_self a rest
        have ⟨ha1, ha2⟩ := List.mem_filter.mp ha
        exact absurd (by simpa using ha2) (h a ha1)
  · rcases hf : db.player_stats.find? (fun r => decide (r.date = d ∧ r.player = p)) with _ | r
    · simp only [get_player_stats, if_neg hd, hf]
      constructor
      · intro _ r hr
        have := List.find?_eq_none.mp hf r hr
        simpa using this
      · intro _
        trivial
    · simp only [get_player_stats, if_neg hd, hf]
      constructor
      · intro h
        cases h
      · intro h
        have h1 := List.mem_of_find?_eq_some hf
        have h2 := List.find?_some hf
        exact absurd (by simpa using h2) (h r h1)

/-- C2 witness: in the concrete database bob has rows (so the all-time record
is present) and has no row for 2025-01-02 (so that day yields absent). -/
theorem get_player_stats_absent_iff_witness :
    (get_player_stats exDB "All Time" "bob" = Option.none ↔
       ∀ r ∈ exDB.player_stats, r.player ≠ "bob") ∧
    (get_player_stats exDB "2025-01-02" "bob" = Option.none ↔
       ∀ r ∈ exDB.player_stats, ¬(r.date = "2025-01-02" ∧ r.player = "bob")) :=
  get_player_stats_absent_iff exDB "bob" "2025-01-02" (by decide)

/-- C6: the period list is the sentinel All Time followed by the stored
dates in descending lexicographic (hence recency) order, distinct when the
date column is a primary key; an empty store yields the sentinel-only list. -/
theorem get_available_dates_spec (db : DB)
    (hpk : (db.daily_summary.map (·.date)).Nodup) :
    (get_available_dates db).head? = some "All Time" ∧
    (get_available_dates db).tail.Sorted strDesc ∧
    (get_available_dates db).tail.Nodup ∧
    (∀ d, d ∈ (get_available_dates db).tail ↔ ∃ r ∈ db.daily_summary, r.date = d) ∧
    (db.daily_summary = [] → get_available_dates db = ["All Time"]) := by
  refine ⟨rfl, List.sorted_insertionSort strDesc _, ?_, ?_, ?_⟩
  · exact (List.perm_insertionSort strDesc _).symm.nodup hpk
  · intro d
    simp [get_available_dates]
  · intro h
    simp [get_available_dates, h]

/-- C6 witness: the concrete database has distinct dates, so the theorem
applies to it. -/
theorem get_available_dates_spec_witness :
    (get_available_dates exDB).head? = some "All Time" ∧
    (get_available_dates exDB).tail.Sorted strDesc ∧
    (get_available_dates exDB).tail.Nodup ∧
    (∀ d, d ∈ (get_available_dates exDB).tail ↔ ∃ r ∈ exDB.daily_summary, r.date = d) ∧
    (exDB.daily_summary = [] → get_available_dates exDB = ["All Time"]) :=
  get_available_dates_spec exDB (by decide)

/-- C7: the winners listing has one entry per stored period (its first
components are a permutation of the stored dates and are distinct when the
date column is a primary key), is ordered by date descending, maps each
period to the winner recorded for it, and is empty for an empty store. -/
theorem get_all_time_winners_spec (db : DB)
    (hpk : (db.daily_summary.map (·.date)).Nodup) :
    ((get_all_time_winners db).map Prod.fst).Perm (db.daily_summary.map (·.date)) ∧
    ((get_all_time_winners db).map Prod.fst).Nodup ∧
    (get_all_time_winners db).Sorted (fun a b => strLe b.1 a.1 = true) ∧
    (∀ x ∈ get_all_time_winners db, ∃ r ∈ db.daily_summary, r.date = x.1 ∧ r.winner = x.2) ∧
    (db.daily_summary = [] → get_all_time_winners db = []) := by
  have hperm : ((get_all_time_winners db).map Prod.fst).Perm
      (db.daily_summary.map (·.date)) := by
    simp only [get_all_time_winners, List.map_map]
    exact List.Perm.map _ (List.perm_insertionSort dsDateDesc db.daily_summary)
  refine ⟨hperm, hperm.symm.nodup hpk, ?_, ?_, ?_⟩
  · refine List.pairwise_map.mpr ?_
    exact List.sorted_insertionSort dsDateDesc _
  · intro x hx
    simp only [get_all_time_winners, List.mem_map, List.mem_insertionSort] at hx
    obtain ⟨r, hr, hfx⟩ := hx
    exact ⟨r, hr, by rw [← hfx], by rw [← hfx]⟩
  · intro h
    simp [get_all_time_winners, h]

/-- C7 witness: the concrete database has distinct dates, so the theorem
applies to it. -/
theorem get_all_time_winners_spec_witness :
    ((get_all_time_winners exDB).map Prod.fst).Perm (exDB.daily_summary.map (·.date)) ∧
    ((get_all_time_winners exDB).map Prod.fst).Nodup ∧
    (get_all_time_winners exDB).Sorted (fun a b => strLe b.1 a.1 = true) ∧
    (∀ x ∈ get_all_time_winners exDB, ∃ r ∈ exDB.daily_summary, r.date = x.1 ∧ r.winner = x.2) ∧
    (exDB.daily_summary = [] → get_all_time_winners exDB = []) :=
  get_all_time_winners_spec exDB (by decide)

/-- C9: when a player_stats row exists for (date, player) but no ranking row
matches it, get_player_stats still returns a record (the left join supplies
NULL fields) whose ranking and tiempo_s entries are NULL. -/
theorem get_player_stats_left_join_nulls (db : DB) (d p : String)
    (hd : d ≠ "All Time")
    (hps : ∃ r ∈ db.player_stats, r.date = d ∧ r.player = p)
    (hrk : ∀ q ∈ db.ranking, ¬(q.date = d ∧ q.player = p)) :
    ∃ L, get_player_stats db d p = some L ∧
      dictGet "ranking" L = some Val.none ∧
      dictGet "tiempo_s" L = some Val.none := by
  obtain ⟨r0, hr0, hr0d, hr0p⟩ := hps
  have hsome : (db.player_stats.find? (fun r => decide (r.date = d ∧ r.player = p))).isSome := by
    rw [List.find?_isSome]
    exact ⟨r0, hr0, by simp [hr0d, hr0p]⟩
  obtain ⟨r, hr⟩ := Option.isSome_iff_exists.mp hsome
  have hprop : r.date = d ∧ r.player = p := by simpa using List.find?_some hr
  have hrnone : db.ranking.find? (fun q => decide (q.date = r.date ∧ q.player = r.player)) =
      Option.none := by
    rw [List.find?_eq_none]
    intro q hq
    simp only [decide_eq_true_eq, hprop.1, hprop.2]
    exact hrk q hq
  refine ⟨[("kills", Val.int r.kills), ("deaths", Val.int r.deaths),
           ("nemesis", match r.nemesis with
                       | some s => Val.str s
                       | Option.none => Val.none),
           ("ranking", Val.none), ("tiempo_s", Val.none)], ?_, rfl, rfl⟩
  simp only [get_player_stats, if_neg hd, hr, hrnone]

/-- C9 witness: bob has a player_stats row for 2025-01-01 but no ranking row
at all, so his daily record carries NULL ranking and tiempo_s fields. -/
theorem get_player_stats_left_join_nulls_witness :
    ∃ L, get_player_stats exDB "2025-01-01" "bob" = some L ∧
      dictGet "ranking" L = some Val.none ∧
      dictGet "tiempo_s" L = some Val.none :=
  get_player_stats_left_join_nulls exDB "2025-01-01" "bob" (by decide) (by decide) (by decide)

/-- C5: for a whitelisted statistic, a positive limit and any day filter,
get_top_players returns a sequence sorted non-increasingly by the value,
of length the minimum of the limit and the number of distinct players with
data for that filter; for All Time each value is the sum of the statistic
over all rows of that player, and for a specific date each value is the
single-row value of a player present on that date. -/
theorem get_top_players_spec (db : DB) (day stat : String) (limit : Nat)
    (hstat : stat = "kills" ∨ stat = "deaths")
    (hlim : 0 < limit)
    (hpk : db.player_stats.Pairwise (fun r s => ¬(r.date = s.date ∧ r.player = s.player))) :
    (get_top_players db day stat limit).Sorted valDesc ∧
    (get_top_players db day stat limit).length = min limit (distinctPlayerCount db day) ∧
    (∀ x ∈ get_top_players db day stat limit,
      if day = "All Time"
      then x.2 = ((db.player_stats.filter (fun r => r.player = x.1)).map (getCol stat)).sum
      else ∃ r ∈ db.player_stats, r.date = day ∧ r.player = x.1 ∧ x.2 = getCol stat r) := by
  have hc : statCol stat = stat := by
    rcases hstat with h | h <;> simp [statCol, h]
  refine ⟨?_, ?_, ?_⟩
  · exact List.Pairwise.sublist (List.take_sublist limit _)
      (List.sorted_insertionSort valDesc _)
  · by_cases hday : day = "All Time"
    · subst hday
      simp only [get_top_players, if_pos rfl, distinctPlayerCount]
      rw [List.length_take, List.length_insertionSort]
      simp [groupSums]
    · simp only [get_top_players, if_neg hday, distinctPlayerCount]
      rw [List.length_take, List.length_insertionSort, List.length_map]
      congr 1
      have h1 : (db.player_stats.filter (fun r => decide (r.date = day))).Pairwise
          (fun r s => ¬(r.date = s.date ∧ r.player = s.player)) := hpk.filter _
      have h2 : (db.player_stats.filter (fun r => decide (r.date = day))).Pairwise
          (fun r s => r.player ≠ s.player) := by
        refine List.Pairwise.imp_of_mem ?_ h1
        intro a b ha hb hR hpe
        have hda : a.date = day := by simpa using (List.mem_filter.mp ha).2
        have hdb : b.date = day := by simpa using (List.mem_filter.mp hb).2
        exact hR ⟨hda.trans hdb.symm, hpe⟩
      have hnd : ((db.player_stats.filter (fun r => decide (r.date = day))).map
          (·.player)).Nodup := List.pairwise_map.mpr h2
      rw [List.dedup_eq_self.mpr hnd, List.length_map]
  · intro x hx
    by_cases hday : day = "All Time"
    · subst hday
      rw [if_pos rfl]
      simp only [get_top_players, if_pos rfl] at hx
      have hx2 : x ∈ groupSums (statCol stat) db.player_stats :=
        (List.mem_insertionSort valDesc).mp (List.mem_of_mem_take hx)
      simp only [groupSums, List.mem_map] at hx2
      obtain ⟨p, hp, hfp⟩ := hx2
      rw [← hfp, hc]
    · rw [if_neg hday]
      simp only [get_top_players, if_neg hday] at hx
      have hx2 := (List.mem_insertionSort valDesc).mp (List.mem_of_mem_take hx)
      simp only [List.mem_map] at hx2
      obtain ⟨r, hr, hrx⟩ := hx2
      obtain ⟨hr1, hr2⟩ := List.mem_filter.mp hr
      exact ⟨r, hr1, by simpa using hr2, by rw [← hrx], by rw [← hrx, hc]⟩

/-- C5 witness: the top-kills list for the date 2025-01-01 with limit 1 in
the concrete database. -/
theorem get_top_players_spec_witness :
    (get_top_players exDB "2025-01-01" "kills" 1).Sorted valDesc ∧
    (get_top_players exDB "2025-01-01" "kills" 1).length =
      min 1 (distinctPlayerCount exDB "2025-01-01") ∧
    (∀ x ∈ get_top_players exDB "2025-01-01" "kills" 1,
      if "2025-01-01" = "All Time"
      then x.2 = ((exDB.player_stats.filter (fun r => r.player = x.1)).map
        (getCol "kills")).sum
      else ∃ r ∈ exDB.player_stats, r.date = "2025-01-01" ∧ r.player = x.1 ∧
        x.2 = getCol "kills" r) :=
  get_top_players_spec exDB "2025-01-01" "kills" 1 (Or.inl rfl) (by decide) (by decide)

/-- C10: the whitelist maps every statistic argument to the column name
kills or deaths (anything unknown to kills), the built query text is always
identical to the text built for one of those two column names, the text for
a specific date does not depend on which date was passed, and the date and
limit travel only in the bound parameter tuple. -/
theorem top_players_query_whitelist (day day2 stat : String) (limit : Int) :
    (statCol stat = "kills" ∨ statCol stat = "deaths") ∧
    (stat ≠ "kills" → stat ≠ "deaths" → statCol stat = "kills") ∧
    (top_players_query day stat = top_players_query day "kills" ∨
     top_players_query day stat = top_players_query day "deaths") ∧
    (day ≠ "All Time" → day2 ≠ "All Time" →
       top_players_query day stat = top_players_query day2 stat) ∧
    (top_players_params day limit = [SqlParam.int limit] ∨
     top_players_params day limit = [SqlParam.str day, SqlParam.int limit]) := by
  refine ⟨?_, ?_, ?_, ?_, ?_⟩
  · by_cases h1 : stat = "kills"
    · left
      simp [statCol, h1]
    · by_cases h2 : stat = "deaths"
      · right
        simp [statCol, h1, h2]
      · left
        simp [statCol, h1, h2]
  · intro h1 h2
    simp [statCol, h1, h2]
  · by_cases h1 : stat = "kills"
    · left
      rw [h1]
    · by_cases h2 : stat = "deaths"
      · right
        rw [h2]
      · left
        simp [top_players_query, statCol, h1, h2]
  · intro h1 h2
    simp [top_players_query, h1, h2]
  · by_cases h : day = "All Time"
    · left
      simp [top_players_params, h]
    · right
      simp [top_players_params, h]

/-- C10 witness: the unsupported argument survival_time maps to the kills
column, the text for the date 2025-01-01 equals the text for 2025-01-02,
and the parameters carry the date and the limit. -/
theorem top_players_query_whitelist_witness :
    (statCol "survival_time" = "kills" ∨ statCol "survival_time" = "deaths") ∧
    ("survival_time" ≠ "kills" → "survival_time" ≠ "deaths" →
       statCol "survival_time" = "kills") ∧
    (top_players_query "2025-01-01" "survival_time" =
       top_players_query "2025-01-01" "kills" ∨
     top_players_query "2025-01-01" "survival_time" =
       top_players_query "2025-01-01" "deaths") ∧
    ("2025-01-01" ≠ "All Time" → "2025-01-02" ≠ "All Time" →
       top_players_query "2025-01-01" "survival_time" =
         top_players_query "2025-01-02" "survival_time") ∧
    (top_players_params "2025-01-01" 10 = [SqlParam.int 10] ∨
     top_players_params "2025-01-01" 10 = [SqlParam.str "2025-01-01", SqlParam.int 10]) :=
  top_players_query_whitelist "2025-01-01" "2025-01-02" "survival_time" 10
